import Mathlib

/-!
Shallow embedding of `src/Source/StreamingSampler.cpp` (streaming sampler:
memory-mapped sample sounds, a per-voice double-buffer loader, and the
voice render path), together with theorems settling the specification
claims about it.

Modelling conventions:
* `float`/`double` sample values and times are modelled as rationals (`ℚ`).
* A stereo frame is a pair (left, right).
* Audio buffers are total functions `ℕ → Frame`; a copy of `n` frames is a
  pointwise overwrite of the target range.
* File positions and buffer indices are `ℕ` (all reachable positions in the
  source are non-negative); the preload size is `ℤ` because
  `setPreloadSize` can store negative requests (see the claims about it).
* The C cast `(int)x` on the non-negative quantities appearing here is
  `Int.toNat ∘ Int.floor`.
* `readBuffer`/`writeBuffer` are pointers into `{b1, b2, preload}`;
  they are modelled as a tag (`BufPtr`) plus a dereference function.
-/

set_option linter.unusedVariables false

/-- A stereo audio frame: (left, right) sample values, floats modelled as `ℚ`. -/
abbrev Frame : Type := ℚ × ℚ

/-- Copy `n` frames from source `s` starting at `srcOff` into `dst` starting at
`dstOff`; models the paired `FloatVectorOperations::copy` calls on both channels. -/
def copyRange (dst : ℕ → Frame) (dstOff : ℕ) (s : ℕ → Frame) (srcOff n : ℕ) : ℕ → Frame :=
  fun i => if dstOff ≤ i ∧ i < dstOff + n then s (srcOff + (i - dstOff)) else dst i

/-- `StreamingSamplerSound`: a memory-mapped sound. `mapEntireFile` maps the whole
file, so the mapped section is `[0, mappedLength)` and `getEnd = getLength =
mappedLength`. `src` is the mapped PCM source (what `memoryReader->read` returns
frame by frame); `preloadBuffer`/`preloadSize` are the preload cache. -/
structure StreamingSamplerSound where
  mappedLength : ℕ
  src : ℕ → Frame
  preloadBuffer : ℕ → Frame
  preloadSize : ℤ

/-- `StreamingSamplerSound::hasEnoughSamplesForBlock`:
`maxSampleIndexInFile < memoryReader->getMappedSection().getEnd()`. -/
def StreamingSamplerSound.hasEnoughSamplesForBlock (s : StreamingSamplerSound)
    (maxSampleIndexInFile : ℕ) : Bool :=
  decide (maxSampleIndexInFile < s.mappedLength)

/-- `StreamingSamplerSound::fillSampleBuffer`: copy from the preload buffer when
the whole range sits strictly inside it, otherwise read from the mapped file. -/
def StreamingSamplerSound.fillSampleBuffer (s : StreamingSamplerSound)
    (sampleBuffer : ℕ → Frame) (samplesToCopy uptime : ℕ) : ℕ → Frame :=
  if (uptime : ℤ) + (samplesToCopy : ℤ) < s.preloadSize then
    copyRange sampleBuffer 0 s.preloadBuffer uptime samplesToCopy
  else
    copyRange sampleBuffer 0 s.src uptime samplesToCopy

/-- Observable outcome of `StreamingSamplerSound::setPreloadSize`: the stored
`preloadSize` member after the clamp, the frame count passed to the
`AudioSampleBuffer(2, preloadSize)` allocation, and the count passed to
`memoryReader->read(&preloadBuffer, 0, preloadSize, 0, true, true)`.
In the source all three are the same member variable. -/
structure PreloadResult where
  preloadSize : ℤ
  allocFrames : ℤ
  readCount : ℤ

/-- `StreamingSamplerSound::setPreloadSize`: `preloadSize = newPreloadSize`, then
clamp to `maxSize` when `newPreloadSize == -1 || preloadSize > maxSize`, where
`maxSize = memoryReader->getMappedSection().getLength()`. -/
def StreamingSamplerSound.setPreloadSize (mappedLength : ℕ) (newPreloadSize : ℤ) :
    PreloadResult :=
  let preloadSize0 : ℤ := newPreloadSize
  let maxSize : ℤ := (mappedLength : ℤ)
  let preloadSize : ℤ :=
    if newPreloadSize = -1 ∨ preloadSize0 > maxSize then maxSize else preloadSize0
  { preloadSize := preloadSize, allocFrames := preloadSize, readCount := preloadSize }

/-- Which buffer a loader pointer designates: swap buffer `b1`, swap buffer `b2`,
or the bound sound's preload buffer. -/
inductive BufPtr where
  | b1
  | b2
  | preload
deriving DecidableEq, Repr

/-- `SampleLoader` state: the two swap buffers, the read/write pointer
designations, the bound sound, the logical stream position the write buffer will
represent once filled, the fill-in-progress flag, and the disk-usage metric. -/
structure SampleLoader where
  bufferSize : ℕ
  b1 : ℕ → Frame
  b2 : ℕ → Frame
  readBuffer : BufPtr
  writeBuffer : BufPtr
  sound : Option StreamingSamplerSound
  readIndex : ℕ
  positionInSampleFile : ℕ
  writeBufferIsBeingFilled : Bool
  diskUsage : ℚ
  lastCallToRequestData : ℚ

/-- Dereference a loader buffer pointer to its frame contents. The preload
pointer reads the bound sound's preload buffer (the source always has a bound
sound when that pointer is active; `jassert(sound != nullptr)`). -/
def SampleLoader.deref (st : SampleLoader) (p : BufPtr) : ℕ → Frame :=
  match p with
  | BufPtr.b1 => st.b1
  | BufPtr.b2 => st.b2
  | BufPtr.preload =>
    match st.sound with
    | some s => s.preloadBuffer
    | none => fun _ => (0, 0)

/-- Overwrite the contents of the buffer currently designated as the write
buffer (the target of `sound->fillSampleBuffer(*writeBuffer, ...)`). The write
pointer is only ever `b1` or `b2` in the source. -/
def SampleLoader.setWriteBuffer (st : SampleLoader) (f : ℕ → Frame) : SampleLoader :=
  match st.writeBuffer with
  | BufPtr.b1 => { st with b1 := f }
  | BufPtr.b2 => { st with b2 := f }
  | BufPtr.preload => st

/-- `SampleLoader::requestNewData`: sets the fill-in-progress flag and submits
this loader as a job to the background pool (the job itself is `runJob`,
modelled as a separate transition executed by the scheduler). -/
def SampleLoader.requestNewData (st : SampleLoader) : SampleLoader :=
  { st with writeBufferIsBeingFilled := true }

/-- `SampleLoader::swapBuffers`: unconditionally exchanges the read/write
designations (the `else` branch also covers a read pointer at the preload
buffer), then returns `writeBufferIsBeingFilled == false`. -/
def SampleLoader.swapBuffers (st : SampleLoader) : SampleLoader × Bool :=
  let st1 :=
    if st.readBuffer = BufPtr.b1 then
      { st with readBuffer := BufPtr.b2, writeBuffer := BufPtr.b1 }
    else
      { st with readBuffer := BufPtr.b1, writeBuffer := BufPtr.b2 }
  (st1, st1.writeBufferIsBeingFilled == false)

/-- `SampleLoader::startNote`: reset the disk-usage metric, bind the sound, point
the read buffer at the sound's preload buffer and the write buffer at `b1`, set
the stream position to `bufferSize`, and — when no fill is in flight — request
new data. The returned flag records whether a background job was submitted. -/
def SampleLoader.startNote (st : SampleLoader) (s : StreamingSamplerSound) :
    SampleLoader × Bool :=
  let st1 : SampleLoader :=
    { st with
      diskUsage := 0
      sound := some s
      readIndex := 0
      readBuffer := BufPtr.preload
      writeBuffer := BufPtr.b1
      positionInSampleFile := st.bufferSize }
  if st1.writeBufferIsBeingFilled then (st1, false)
  else (SampleLoader.requestNewData st1, true)

/-- `SampleLoader::fillInactiveBuffer`: if the sound still has frames up to
`bufferSize + positionInSampleFile`, fill the write buffer from the sound at
`positionInSampleFile`; otherwise leave the write buffer untouched. -/
def SampleLoader.fillInactiveBuffer (st : SampleLoader) : SampleLoader :=
  match st.sound with
  | none => st
  | some s =>
    if s.hasEnoughSamplesForBlock (st.bufferSize + st.positionInSampleFile) then
      st.setWriteBuffer
        (s.fillSampleBuffer (st.deref st.writeBuffer) st.bufferSize st.positionInSampleFile)
    else st

/-- `SampleLoader::runJob`: fill the inactive buffer, clear the fill-in-progress
flag, and fold `readTime / timeSinceLastCall` into the peak disk-usage metric.
The high-resolution clock readings taken at entry and after the read are passed
in as `readStart` and `readStop`. -/
def SampleLoader.runJob (st : SampleLoader) (readStart readStop : ℚ) : SampleLoader :=
  let st1 := SampleLoader.fillInactiveBuffer st
  let st2 := { st1 with writeBufferIsBeingFilled := false }
  let readTime := readStop - readStart
  let timeSinceLastCall := readStop - st.lastCallToRequestData
  let diskUsageThisTime := readTime / timeSinceLastCall
  { st2 with
    diskUsage := max st2.diskUsage diskUsageThisTime
    lastCallToRequestData := readStart }

/-- Result of `SampleLoader::fillSampleBlockBuffer`: the loader state afterwards,
the destination buffer contents, and whether the underrun assertion
(`jassertfalse` on a failed swap) fired. -/
structure FillResult where
  loader : SampleLoader
  dest : ℕ → Frame
  underrun : Bool

/-- `SampleLoader::fillSampleBlockBuffer`: fast path copies `numSamples` frames
from the read buffer at `sampleIndex % bufferSize`; the slow path drains the
read buffer's tail, swaps, and — when the swap reports the fill completed —
copies the head from the new read buffer, advances the stream position, and
requests new data; on a failed swap it stops after the tail copy (underrun). -/
def SampleLoader.fillSampleBlockBuffer (st : SampleLoader) (sampleBlockBuffer : ℕ → Frame)
    (numSamples sampleIndex : ℕ) : FillResult :=
  let readIndex := sampleIndex % st.bufferSize
  if readIndex + numSamples < st.bufferSize then
    { loader := st
      dest := copyRange sampleBlockBuffer 0 (st.deref st.readBuffer) readIndex numSamples
      underrun := false }
  else
    let remainingSamples := st.bufferSize - readIndex
    let dest1 := copyRange sampleBlockBuffer 0 (st.deref st.readBuffer) readIndex remainingSamples
    let st1 := (SampleLoader.swapBuffers st).1
    if (SampleLoader.swapBuffers st).2 then
      let numSamplesInNewReadBuffer := numSamples - remainingSamples
      let dest2 :=
        copyRange dest1 remainingSamples (st1.deref st1.readBuffer) 0 numSamplesInNewReadBuffer
      let st2 := { st1 with positionInSampleFile := st1.positionInSampleFile + st1.bufferSize }
      { loader := SampleLoader.requestNewData st2, dest := dest2, underrun := false }
    else
      { loader := st1, dest := dest1, underrun := true }

/-- `StreamingSamplerVoice` state: fractional playback position, per-frame pitch
increment, the owned loader, and the voice's local work buffer
(`samplesForThisBlock`). -/
structure StreamingSamplerVoice where
  voiceUptime : ℚ
  uptimeDelta : ℚ
  loader : SampleLoader
  samplesForThisBlock : ℕ → Frame

/-- Modelled from the spec: `resetVoice` is declared in the header (not present
under `src/`); per the spec it transitions the voice to Finished — the voice
becomes idle with no loaded sound, so further `renderNextBlock` calls are
no-ops, and the fractional position is reset. -/
def StreamingSamplerVoice.resetVoice (v : StreamingSamplerVoice) : StreamingSamplerVoice :=
  { v with voiceUptime := 0, loader := { v.loader with sound := none } }

/-- `StreamingSamplerVoice::startNote`: starts the loader on the sound, resets
the fractional position, and sets
`uptimeDelta = jmin(sound->getPitchFactor(midiNoteNumber), MAX_SAMPLER_PITCH)`.
`getPitchFactor` lives in the header (not under `src/`) and is kept abstract as
the argument `getPitchFactor`; the `MAX_SAMPLER_PITCH` constant is the argument
`maxSamplerPitch`. The returned flag is the loader's "background job submitted"
flag. -/
def StreamingSamplerVoice.startNote (v : StreamingSamplerVoice)
    (s : StreamingSamplerSound) (midiNoteNumber : ℤ) (maxSamplerPitch : ℚ)
    (getPitchFactor : ℤ → ℚ) : StreamingSamplerVoice × Bool :=
  let r := SampleLoader.startNote v.loader s
  ({ v with
      loader := r.1
      voiceUptime := 0
      uptimeDelta := min (getPitchFactor midiNoteNumber) maxSamplerPitch }, r.2)

/-- The accumulation loop for `numSamplesUsed` in `renderNextBlock`: with no
per-sample pitch data (the `STANDALONE` build) each output frame adds
`uptimeDelta`; with pitch data each adds
`jmin(uptimeDelta * pitchData[i], MAX_SAMPLER_PITCH)`. -/
def framesNeeded (maxSamplerPitch : ℚ) (pitchData : Option (ℕ → ℚ)) (uptimeDelta : ℚ)
    (startSample numSamples : ℕ) : ℚ :=
  match pitchData with
  | none => (numSamples : ℚ) * uptimeDelta
  | some pd =>
    (Finset.range numSamples).sum fun i =>
      min (uptimeDelta * pd (startSample + i)) maxSamplerPitch

/-- `const int pos = (int)voiceUptime;` — truncation of the (non-negative)
fractional position. -/
def StreamingSamplerVoice.renderPos (v : StreamingSamplerVoice) : ℕ :=
  (⌊v.voiceUptime⌋).toNat

/-- The float literal `0.99999f` of the source, modelled as its decimal value.
Every theorem below depends only on `0 < eps99999 < 1`. -/
def eps99999 : ℚ := 99999 / 100000

/-- `const int samplesToCopy = (int)(numSamplesUsed + 0.99999f);` where
`numSamplesUsed` starts at `voiceUptime - pos` and accumulates the per-frame
pitch increments. -/
def renderSamplesToCopy (maxSamplerPitch : ℚ) (pitchData : Option (ℕ → ℚ))
    (v : StreamingSamplerVoice) (startSample numSamples : ℕ) : ℕ :=
  let pos := v.renderPos
  let numSamplesUsed :=
    (v.voiceUptime - (pos : ℚ)) +
      framesNeeded maxSamplerPitch pitchData v.uptimeDelta startSample numSamples
  (⌊numSamplesUsed + eps99999⌋).toNat

/-- One linear-interpolation step of the render loop: `index = (int)indexFloat`,
`alpha = indexFloat - index`, result channel `c` is
`in[index]*invAlpha + in[index+1]*alpha`. -/
def interpFrame (inBuf : ℕ → Frame) (indexFloat : ℚ) : Frame :=
  let index : ℕ := (⌊indexFloat⌋).toNat
  let alpha : ℚ := indexFloat - (index : ℚ)
  let invAlpha : ℚ := 1 - alpha
  ((inBuf index).1 * invAlpha + (inBuf (index + 1)).1 * alpha,
   (inBuf index).2 * invAlpha + (inBuf (index + 1)).2 * alpha)

/-- `*outL++ += l; *outR++ += r;` — add a frame into the output buffer at one
position, leaving every other position unchanged. -/
def addIntoAt (out : ℕ → Frame) (j : ℕ) (c : Frame) : ℕ → Frame :=
  fun i => if i = j then ((out i).1 + c.1, (out i).2 + c.2) else out i

/-- The `while (--numSamples >= 0)` loop of `renderNextBlock`: at each step
interpolate at `voiceUptime - pos`, add into the output at the current position,
advance the output position by one and `voiceUptime` by `uptimeDelta` (the
compiled loop advances by the unmodulated `uptimeDelta`). -/
def renderLoop (inBuf : ℕ → Frame) (pos : ℕ) (uptimeDelta : ℚ) :
    (ℕ → Frame) → ℕ → ℚ → ℕ → (ℕ → Frame)
  | out, _, _, 0 => out
  | out, outPos, uptime, numSamples + 1 =>
    let c := interpFrame inBuf (uptime - (pos : ℚ))
    renderLoop inBuf pos uptimeDelta (addIntoAt out outPos c) (outPos + 1)
      (uptime + uptimeDelta) numSamples

/-- The `loader.fillSampleBlockBuffer(samplesForThisBlock, samplesToCopy, pos)`
call of `renderNextBlock`, with the request size and position it computes. -/
def renderWork (maxSamplerPitch : ℚ) (pitchData : Option (ℕ → ℚ))
    (v : StreamingSamplerVoice) (startSample numSamples : ℕ) : FillResult :=
  SampleLoader.fillSampleBlockBuffer v.loader v.samplesForThisBlock
    (renderSamplesToCopy maxSamplerPitch pitchData v startSample numSamples) v.renderPos

/-- Result of a `renderNextBlock` call: the voice state afterwards and the
output buffer contents. -/
structure RenderOut where
  voice : StreamingSamplerVoice
  out : ℕ → Frame

/-- `StreamingSamplerVoice::renderNextBlock`: no-op without a loaded sound;
otherwise compute `pos` and `samplesToCopy`, stop the voice when
`hasEnoughSamplesForBlock(pos + samplesToCopy)` fails, else fill the work
buffer through the loader and run the interpolation loop, accumulating into
the output buffer. -/
def StreamingSamplerVoice.renderNextBlock (maxSamplerPitch : ℚ)
    (pitchData : Option (ℕ → ℚ)) (v : StreamingSamplerVoice)
    (outputBuffer : ℕ → Frame) (startSample numSamples : ℕ) : RenderOut :=
  match v.loader.sound with
  | none => { voice := v, out := outputBuffer }
  | some snd =>
    let pos := v.renderPos
    let samplesToCopy := renderSamplesToCopy maxSamplerPitch pitchData v startSample numSamples
    if snd.hasEnoughSamplesForBlock (pos + samplesToCopy) then
      let fr := renderWork maxSamplerPitch pitchData v startSample numSamples
      { voice :=
          { v with
            loader := fr.loader
            samplesForThisBlock := fr.dest
            voiceUptime := v.voiceUptime + (numSamples : ℚ) * v.uptimeDelta }
        out := renderLoop fr.dest pos v.uptimeDelta outputBuffer startSample v.voiceUptime numSamples }
    else
      { voice := v.resetVoice, out := outputBuffer }

/-! ## Concrete fixtures used by witnesses and counterexamples -/

/-- A concrete mapped source: frame `n` holds `(n, n + 100)`. -/
def exSrc : ℕ → Frame := fun n => ((n : ℚ), (n : ℚ) + 100)

/-- A concrete sound over `exSrc` with 100 mapped frames and a 50-frame preload. -/
def exSound : StreamingSamplerSound :=
  { mappedLength := 100, src := exSrc, preloadBuffer := exSrc, preloadSize := 50 }

/-- A loader mid-preload-phase: `bufferSize = 4`, read pointer on the preload
buffer, `b1` already filled with frames 4..7, no fill in flight. -/
def exLoader : SampleLoader :=
  { bufferSize := 4
    b1 := fun j => exSrc (4 + j)
    b2 := fun _ => (0, 0)
    readBuffer := BufPtr.preload
    writeBuffer := BufPtr.b1
    sound := some exSound
    readIndex := 0
    positionInSampleFile := 4
    writeBufferIsBeingFilled := false
    diskUsage := 0
    lastCallToRequestData := 0 }

/-- A destination buffer with recognisable initial contents. -/
def exDest : ℕ → Frame := fun _ => (999, 999)

/-- The same loader but with the read pointer on `b1` and a fill in flight on
the other buffer. -/
def exLoaderBusy : SampleLoader :=
  { exLoader with
    readBuffer := BufPtr.b1
    writeBuffer := BufPtr.b2
    writeBufferIsBeingFilled := true }

/-- A voice at position 0 with pitch ratio 1 over `exLoader`. -/
def exVoice : StreamingSamplerVoice :=
  { voiceUptime := 0, uptimeDelta := 1, loader := exLoader, samplesForThisBlock := fun _ => (999, 999) }

/-- An all-zero output buffer. -/
def exZeroOut : ℕ → Frame := fun _ => (0, 0)

/-- A sound with only one mapped frame (for the end-of-data path). -/
def exSoundShort : StreamingSamplerSound :=
  { mappedLength := 1, src := exSrc, preloadBuffer := exSrc, preloadSize := 1 }

/-- A voice bound to the one-frame sound. -/
def exVoiceShort : StreamingSamplerVoice :=
  { exVoice with loader := { exLoader with sound := some exSoundShort } }

/-! ## C6 / C10: the preload-size clamp -/

/-- C6: for every `setPreloadSize` request, `-1` and any request `≥` the mapped
length both yield an actual preload size equal to the mapped length; every
other request is kept verbatim. -/
theorem setPreloadSize_clamp (mappedLength : ℕ) (n : ℤ) :
    ((n = -1 ∨ (mappedLength : ℤ) ≤ n) →
      (StreamingSamplerSound.setPreloadSize mappedLength n).preloadSize = (mappedLength : ℤ))
    ∧ (n ≠ -1 → n < (mappedLength : ℤ) →
      (StreamingSamplerSound.setPreloadSize mappedLength n).preloadSize = n) := by
  constructor
  · intro h
    simp only [StreamingSamplerSound.setPreloadSize]
    split_ifs with hc
    · rfl
    · push_neg at hc
      omega
  · intro h1 h2
    simp only [StreamingSamplerSound.setPreloadSize]
    split_ifs with hc
    · rcases hc with hc | hc <;> omega
    · rfl

/-- Witness for C6 at `mappedLength = 5` and requests `-1`, `7` and `3`. -/
theorem setPreloadSize_clamp_witness :
    (StreamingSamplerSound.setPreloadSize 5 (-1)).preloadSize = (5 : ℤ)
    ∧ (StreamingSamplerSound.setPreloadSize 5 7).preloadSize = (5 : ℤ)
    ∧ (StreamingSamplerSound.setPreloadSize 5 3).preloadSize = 3 :=
  ⟨(setPreloadSize_clamp 5 (-1)).1 (Or.inl rfl),
   (setPreloadSize_clamp 5 7).1 (Or.inr (by norm_num)),
   (setPreloadSize_clamp 5 3).2 (by norm_num) (by norm_num)⟩

/-- C10: a negative request other than `-1` fails both clamp checks, so it is
kept as the preload size and used directly as the allocation length and the
read count for the preload buffer. -/
theorem setPreloadSize_negative_kept (mappedLength : ℕ) (n : ℤ) (hneg : n < 0)
    (hne : n ≠ -1) :
    (StreamingSamplerSound.setPreloadSize mappedLength n).preloadSize = n
    ∧ (StreamingSamplerSound.setPreloadSize mappedLength n).allocFrames = n
    ∧ (StreamingSamplerSound.setPreloadSize mappedLength n).readCount = n := by
  simp only [StreamingSamplerSound.setPreloadSize]
  split_ifs with hc
  · rcases hc with hc | hc <;> omega
  · exact ⟨rfl, rfl, rfl⟩

/-- Witness for C10 at `mappedLength = 5`, request `-2`. -/
theorem setPreloadSize_negative_kept_witness :
    (StreamingSamplerSound.setPreloadSize 5 (-2)).preloadSize = -2
    ∧ (StreamingSamplerSound.setPreloadSize 5 (-2)).allocFrames = -2
    ∧ (StreamingSamplerSound.setPreloadSize 5 (-2)).readCount = -2 :=
  setPreloadSize_negative_kept 5 (-2) (by norm_num) (by norm_num)

/-! ## C7: startNote initialization -/

/-- C7: `startNote` points the read buffer at the sound's preload buffer (not a
swap buffer), sets the logical stream offset to `bufferSize`, resets the
fractional playback position to 0, sets the pitch increment to
`min(getPitchFactor(midiNote), MAX_SAMPLER_PITCH)`, and submits a background
refill of the first swap buffer exactly when no fill is already in flight. -/
theorem startNote_initializes (v : StreamingSamplerVoice) (s : StreamingSamplerSound)
    (midiNoteNumber : ℤ) (maxSamplerPitch : ℚ) (getPitchFactor : ℤ → ℚ) :
    (StreamingSamplerVoice.startNote v s midiNoteNumber maxSamplerPitch getPitchFactor).1.loader.readBuffer
        = BufPtr.preload
    ∧ (StreamingSamplerVoice.startNote v s midiNoteNumber maxSamplerPitch getPitchFactor).1.loader.writeBuffer
        = BufPtr.b1
    ∧ (StreamingSamplerVoice.startNote v s midiNoteNumber maxSamplerPitch getPitchFactor).1.loader.sound
        = some s
    ∧ (StreamingSamplerVoice.startNote v s midiNoteNumber maxSamplerPitch getPitchFactor).1.loader.positionInSampleFile
        = v.loader.bufferSize
    ∧ (StreamingSamplerVoice.startNote v s midiNoteNumber maxSamplerPitch getPitchFactor).1.voiceUptime = 0
    ∧ (StreamingSamplerVoice.startNote v s midiNoteNumber maxSamplerPitch getPitchFactor).1.uptimeDelta
        = min (getPitchFactor midiNoteNumber) maxSamplerPitch
    ∧ ((StreamingSamplerVoice.startNote v s midiNoteNumber maxSamplerPitch getPitchFactor).2 = true
        ↔ v.loader.writeBufferIsBeingFilled = false) := by
  simp only [StreamingSamplerVoice.startNote, SampleLoader.startNote, SampleLoader.requestNewData]
  by_cases h : v.loader.writeBufferIsBeingFilled <;> simp [h]

/-! ## C8: the disk-usage peak metric -/

/-- C8: the disk-usage measurement is reset to 0 by `startNote`; each completed
background fill (`runJob`) updates it to
`max(previousUsage, readTime / timeSinceLastCall)`, hence it never decreases;
and the render-side `fillSampleBlockBuffer` never touches it. -/
theorem diskUsage_peak_tracking :
    (∀ (ld : SampleLoader) (s : StreamingSamplerSound),
       (SampleLoader.startNote ld s).1.diskUsage = 0)
    ∧ (∀ (ld : SampleLoader) (readStart readStop : ℚ),
       (SampleLoader.runJob ld readStart readStop).diskUsage
          = max ld.diskUsage ((readStop - readStart) / (readStop - ld.lastCallToRequestData))
        ∧ ld.diskUsage ≤ (SampleLoader.runJob ld readStart readStop).diskUsage)
    ∧ (∀ (ld : SampleLoader) (dest : ℕ → Frame) (numSamples sampleIndex : ℕ),
       (SampleLoader.fillSampleBlockBuffer ld dest numSamples sampleIndex).loader.diskUsage
          = ld.diskUsage) := by
  refine ⟨?_, ?_, ?_⟩
  · intro ld s
    simp only [SampleLoader.startNote, SampleLoader.requestNewData]
    by_cases h : ld.writeBufferIsBeingFilled <;> simp [h]
  · intro ld readStart readStop
    have hfill : (SampleLoader.fillInactiveBuffer ld).diskUsage = ld.diskUsage := by
      unfold SampleLoader.fillInactiveBuffer
      split
      · rfl
      · split_ifs with h
        · simp only [SampleLoader.setWriteBuffer]
          split <;> rfl
        · rfl
    constructor
    · simp only [SampleLoader.runJob, hfill]
    · simp only [SampleLoader.runJob, hfill]
      exact le_max_left _ _
  · intro ld dest numSamples sampleIndex
    simp only [SampleLoader.fillSampleBlockBuffer, SampleLoader.swapBuffers,
      SampleLoader.requestNewData]
    by_cases h1 : sampleIndex % ld.bufferSize + numSamples < ld.bufferSize <;>
      by_cases h2 : ld.readBuffer = BufPtr.b1 <;>
        simp [h1, h2] <;> split_ifs <;> rfl

/-! ## C9 / C2: swap behaviour on buffer-boundary crossings -/

/-- C9: `swapBuffers` unconditionally exchanges the read/write designations
(a read pointer at the preload buffer becomes `b1`), and its return value only
reports whether the write buffer's fill had completed; in the slow path of
`fillSampleBlockBuffer` the stream offset is advanced and a new fill requested
exactly when that return value is true — when it is false the exchange has
still taken place. -/
theorem swapBuffers_unconditional :
    (∀ ld : SampleLoader,
       (SampleLoader.swapBuffers ld).1.readBuffer
           = (if ld.readBuffer = BufPtr.b1 then BufPtr.b2 else BufPtr.b1)
       ∧ (SampleLoader.swapBuffers ld).1.writeBuffer
           = (if ld.readBuffer = BufPtr.b1 then BufPtr.b1 else BufPtr.b2)
       ∧ (SampleLoader.swapBuffers ld).2 = !ld.writeBufferIsBeingFilled)
    ∧ (∀ (ld : SampleLoader) (dest : ℕ → Frame) (numSamples sampleIndex : ℕ),
       ¬ (sampleIndex % ld.bufferSize + numSamples < ld.bufferSize) →
       (SampleLoader.fillSampleBlockBuffer ld dest numSamples sampleIndex).loader.readBuffer
           = (if ld.readBuffer = BufPtr.b1 then BufPtr.b2 else BufPtr.b1)
       ∧ (ld.writeBufferIsBeingFilled = false →
            (SampleLoader.fillSampleBlockBuffer ld dest numSamples sampleIndex).loader.positionInSampleFile
                = ld.positionInSampleFile + ld.bufferSize
            ∧ (SampleLoader.fillSampleBlockBuffer ld dest numSamples sampleIndex).loader.writeBufferIsBeingFilled
                = true)
       ∧ (ld.writeBufferIsBeingFilled = true →
            (SampleLoader.fillSampleBlockBuffer ld dest numSamples sampleIndex).loader.positionInSampleFile
                = ld.positionInSampleFile
            ∧ (SampleLoader.fillSampleBlockBuffer ld dest numSamples sampleIndex).loader.writeBufferIsBeingFilled
                = ld.writeBufferIsBeingFilled)) := by
  constructor
  · intro ld
    simp only [SampleLoader.swapBuffers]
    by_cases h : ld.readBuffer = BufPtr.b1 <;>
      cases hb : ld.writeBufferIsBeingFilled <;> simp [h, hb]
  · intro ld dest numSamples sampleIndex hcross
    simp only [SampleLoader.fillSampleBlockBuffer, SampleLoader.swapBuffers,
      SampleLoader.requestNewData, if_neg hcross]
    by_cases h : ld.readBuffer = BufPtr.b1 <;>
      cases hb : ld.writeBufferIsBeingFilled <;> simp [h, hb]

/-- Witness for C9: the busy fixture crosses a buffer boundary with a fill in
flight; the pointer exchange still happens and nothing else changes. -/
theorem swapBuffers_unconditional_witness :
    (SampleLoader.fillSampleBlockBuffer exLoaderBusy exDest 4 2).loader.readBuffer
        = (if exLoaderBusy.readBuffer = BufPtr.b1 then BufPtr.b2 else BufPtr.b1)
    ∧ ((SampleLoader.fillSampleBlockBuffer exLoaderBusy exDest 4 2).loader.positionInSampleFile
           = exLoaderBusy.positionInSampleFile
       ∧ (SampleLoader.fillSampleBlockBuffer exLoaderBusy exDest 4 2).loader.writeBufferIsBeingFilled
           = exLoaderBusy.writeBufferIsBeingFilled) :=
  ⟨(swapBuffers_unconditional.2 exLoaderBusy exDest 4 2 (by norm_num [exLoaderBusy, exLoader])).1,
   (swapBuffers_unconditional.2 exLoaderBusy exDest 4 2 (by norm_num [exLoaderBusy, exLoader])).2.2 rfl⟩

/-- Counterexample to C2 as stated: with a fill still in flight
(`writeBufferIsBeingFilled = true`) a boundary-crossing
`fillSampleBlockBuffer` call does NOT leave the read/write designation
unchanged — the pointers are exchanged anyway. -/
theorem swap_despite_incomplete_fill_cex :
    exLoaderBusy.writeBufferIsBeingFilled = true
    ∧ exLoaderBusy.readBuffer = BufPtr.b1
    ∧ (SampleLoader.fillSampleBlockBuffer exLoaderBusy exDest 4 2).loader.readBuffer
        = BufPtr.b2 := by
  refine ⟨rfl, rfl, ?_⟩
  simp [SampleLoader.fillSampleBlockBuffer, SampleLoader.swapBuffers, exLoaderBusy, exLoader]

/-- C2 (amended): on a boundary crossing with the other buffer's fill still in
flight, the read/write designation is exchanged anyway, but the stream offset
is not advanced, no new fill is requested, nothing is copied out of the
unfilled buffer (the destination beyond the drained tail is untouched), and
the condition is surfaced as a buffer underrun (`jassertfalse`). -/
theorem fillSampleBlockBuffer_underrun_behavior (ld : SampleLoader) (dest : ℕ → Frame)
    (numSamples sampleIndex : ℕ)
    (hcross : ¬ (sampleIndex % ld.bufferSize + numSamples < ld.bufferSize))
    (hbusy : ld.writeBufferIsBeingFilled = true) :
    (SampleLoader.fillSampleBlockBuffer ld dest numSamples sampleIndex).underrun = true
    ∧ (SampleLoader.fillSampleBlockBuffer ld dest numSamples sampleIndex).loader.readBuffer
        = (if ld.readBuffer = BufPtr.b1 then BufPtr.b2 else BufPtr.b1)
    ∧ (SampleLoader.fillSampleBlockBuffer ld dest numSamples sampleIndex).loader.positionInSampleFile
        = ld.positionInSampleFile
    ∧ (SampleLoader.fillSampleBlockBuffer ld dest numSamples sampleIndex).loader.writeBufferIsBeingFilled
        = true
    ∧ (∀ i, ld.bufferSize - sampleIndex % ld.bufferSize ≤ i →
        (SampleLoader.fillSampleBlockBuffer ld dest numSamples sampleIndex).dest i = dest i) := by
  simp only [SampleLoader.fillSampleBlockBuffer, SampleLoader.swapBuffers,
    SampleLoader.requestNewData, if_neg hcross]
  by_cases h : ld.readBuffer = BufPtr.b1 <;> simp [h, hbusy, copyRange] <;>
    (intro i hi h1; exact absurd h1 (by omega))

/-- Witness for the amended C2 at the busy fixture. -/
theorem fillSampleBlockBuffer_underrun_behavior_witness :
    (SampleLoader.fillSampleBlockBuffer exLoaderBusy exDest 4 2).underrun = true
    ∧ (SampleLoader.fillSampleBlockBuffer exLoaderBusy exDest 4 2).dest 3 = exDest 3 :=
  ⟨(fillSampleBlockBuffer_underrun_behavior exLoaderBusy exDest 4 2
      (by norm_num [exLoaderBusy, exLoader]) rfl).1,
   (fillSampleBlockBuffer_underrun_behavior exLoaderBusy exDest 4 2
      (by norm_num [exLoaderBusy, exLoader]) rfl).2.2.2.2 3 (by norm_num [exLoaderBusy, exLoader])⟩

/-! ## C3: the number of source frames requested per render call -/

/-- Counterexample to C3 as stated: at `voiceUptime = 0`, pitch ratio 1 and one
output frame, `renderNextBlock` requests `(int)(1 + 0.99999f) = 1` source
frame, not `ceil(framesNeeded) + 1 = 2`: the work buffer after the call
differs at index 1 from what a fill of `ceil(framesNeeded) + 1` frames would
have produced. -/
theorem renderNextBlock_request_count_cex :
    (StreamingSamplerVoice.renderNextBlock 16 none exVoice exZeroOut 0 1).voice.samplesForThisBlock 1
      ≠ (SampleLoader.fillSampleBlockBuffer exVoice.loader exVoice.samplesForThisBlock
          (Int.toNat (⌈framesNeeded 16 none exVoice.uptimeDelta 0 1⌉ + 1))
          exVoice.renderPos).dest 1 := by
  have hceil : Int.toNat (⌈framesNeeded 16 none exVoice.uptimeDelta 0 1⌉ + 1) = 2 := by
    have h1 : ⌈framesNeeded 16 none exVoice.uptimeDelta 0 1⌉ = 1 := by
      norm_num [framesNeeded, exVoice]
    rw [h1]
    rfl
  have hstc : renderSamplesToCopy 16 none exVoice 0 1 = 1 := by
    norm_num [renderSamplesToCopy, framesNeeded, StreamingSamplerVoice.renderPos, eps99999,
      exVoice]
  rw [hceil]
  simp only [StreamingSamplerVoice.renderNextBlock, renderWork, exVoice]
  norm_num [hstc, renderSamplesToCopy, framesNeeded, StreamingSamplerVoice.renderPos, eps99999,
    StreamingSamplerSound.hasEnoughSamplesForBlock, SampleLoader.fillSampleBlockBuffer,
    SampleLoader.deref, copyRange, exVoice, exLoader, exSound, exSrc]

/-- C3 (amended): the number of source frames `renderNextBlock` requests from
the loader is `(int)(numSamplesUsed + 0.99999f)`, where `numSamplesUsed` is the
fractional part of `voiceUptime` plus the (possibly per-sample modulated,
`MAX_SAMPLER_PITCH`-clamped) sum of pitch ratios over the block — an
epsilon-ceiling of that total, not `ceil(framesNeeded) + 1`. -/
theorem renderNextBlock_request_count (maxSamplerPitch : ℚ) (pitchData : Option (ℕ → ℚ))
    (v : StreamingSamplerVoice) (outputBuffer : ℕ → Frame) (startSample numSamples : ℕ)
    (snd : StreamingSamplerSound) (hs : v.loader.sound = some snd)
    (hen : snd.hasEnoughSamplesForBlock
        (v.renderPos + renderSamplesToCopy maxSamplerPitch pitchData v startSample numSamples)
        = true) :
    (StreamingSamplerVoice.renderNextBlock maxSamplerPitch pitchData v outputBuffer
        startSample numSamples).voice.samplesForThisBlock
      = (SampleLoader.fillSampleBlockBuffer v.loader v.samplesForThisBlock
          (renderSamplesToCopy maxSamplerPitch pitchData v startSample numSamples)
          v.renderPos).dest
    ∧ renderSamplesToCopy maxSamplerPitch pitchData v startSample numSamples
      = (⌊(v.voiceUptime - (v.renderPos : ℚ))
            + framesNeeded maxSamplerPitch pitchData v.uptimeDelta startSample numSamples
            + eps99999⌋).toNat := by
  constructor
  · simp only [StreamingSamplerVoice.renderNextBlock, hs, hen, renderWork, if_true]
  · simp only [renderSamplesToCopy, add_assoc]

/-- Witness for the amended C3 at the concrete voice fixture. -/
theorem renderNextBlock_request_count_witness :
    (StreamingSamplerVoice.renderNextBlock 16 none exVoice exZeroOut 0 1).voice.samplesForThisBlock
      = (SampleLoader.fillSampleBlockBuffer exVoice.loader exVoice.samplesForThisBlock
          (renderSamplesToCopy 16 none exVoice 0 1) exVoice.renderPos).dest
    ∧ renderSamplesToCopy 16 none exVoice 0 1
      = (⌊(exVoice.voiceUptime - (exVoice.renderPos : ℚ))
            + framesNeeded 16 none exVoice.uptimeDelta 0 1 + eps99999⌋).toNat :=
  renderNextBlock_request_count 16 none exVoice exZeroOut 0 1 exSound rfl
    (by norm_num [StreamingSamplerSound.hasEnoughSamplesForBlock, renderSamplesToCopy,
      framesNeeded, StreamingSamplerVoice.renderPos, eps99999, exVoice, exLoader, exSound])

/-! ## C4: end-of-data termination -/

/-- C4: when the availability check `hasEnoughSamplesForBlock(pos + samplesToCopy)`
fails, `renderNextBlock` leaves the output buffer untouched and transitions the
voice to Finished (no loaded sound); any later `renderNextBlock` on the
Finished voice is a no-op returning its output buffer unchanged — no error is
propagated (the function simply returns). -/
theorem renderNextBlock_end_of_data (maxSamplerPitch : ℚ) (pitchData : Option (ℕ → ℚ))
    (v : StreamingSamplerVoice) (outputBuffer : ℕ → Frame) (startSample numSamples : ℕ)
    (snd : StreamingSamplerSound) (hs : v.loader.sound = some snd)
    (hen : snd.hasEnoughSamplesForBlock
        (v.renderPos + renderSamplesToCopy maxSamplerPitch pitchData v startSample numSamples)
        = false) :
    (StreamingSamplerVoice.renderNextBlock maxSamplerPitch pitchData v outputBuffer
        startSample numSamples).out = outputBuffer
    ∧ (StreamingSamplerVoice.renderNextBlock maxSamplerPitch pitchData v outputBuffer
        startSample numSamples).voice.loader.sound = none
    ∧ (∀ (mp2 : ℚ) (pd2 : Option (ℕ → ℚ)) (out2 : ℕ → Frame) (s2 n2 : ℕ),
        StreamingSamplerVoice.renderNextBlock mp2 pd2
            (StreamingSamplerVoice.renderNextBlock maxSamplerPitch pitchData v outputBuffer
              startSample numSamples).voice out2 s2 n2
          = { voice := (StreamingSamplerVoice.renderNextBlock maxSamplerPitch pitchData v
                outputBuffer startSample numSamples).voice
              out := out2 }) := by
  have hr : StreamingSamplerVoice.renderNextBlock maxSamplerPitch pitchData v outputBuffer
      startSample numSamples = { voice := v.resetVoice, out := outputBuffer } := by
    simp only [StreamingSamplerVoice.renderNextBlock, hs, hen, Bool.false_eq_true, if_false]
  refine ⟨by rw [hr], by rw [hr]; rfl, ?_⟩
  intro mp2 pd2 out2 s2 n2
  rw [hr]
  simp only [StreamingSamplerVoice.renderNextBlock, StreamingSamplerVoice.resetVoice]

/-- Witness for C4: the one-frame sound runs out immediately; the render call
writes nothing, unbinds the sound, and a repeated call is a no-op. -/
theorem renderNextBlock_end_of_data_witness :
    (StreamingSamplerVoice.renderNextBlock 16 none exVoiceShort exZeroOut 0 1).out = exZeroOut
    ∧ (StreamingSamplerVoice.renderNextBlock 16 none exVoiceShort exZeroOut 0 1).voice.loader.sound
        = none
    ∧ StreamingSamplerVoice.renderNextBlock 16 none
        (StreamingSamplerVoice.renderNextBlock 16 none exVoiceShort exZeroOut 0 1).voice exDest 0 3
      = { voice := (StreamingSamplerVoice.renderNextBlock 16 none exVoiceShort exZeroOut 0 1).voice
          out := exDest } :=
  ⟨(renderNextBlock_end_of_data 16 none exVoiceShort exZeroOut 0 1 exSoundShort rfl
      (by norm_num [StreamingSamplerSound.hasEnoughSamplesForBlock, renderSamplesToCopy,
        framesNeeded, StreamingSamplerVoice.renderPos, eps99999, exVoiceShort, exVoice,
        exLoader, exSoundShort])).1,
   (renderNextBlock_end_of_data 16 none exVoiceShort exZeroOut 0 1 exSoundShort rfl
      (by norm_num [StreamingSamplerSound.hasEnoughSamplesForBlock, renderSamplesToCopy,
        framesNeeded, StreamingSamplerVoice.renderPos, eps99999, exVoiceShort, exVoice,
        exLoader, exSoundShort])).2.1,
   (renderNextBlock_end_of_data 16 none exVoiceShort exZeroOut 0 1 exSoundShort rfl
      (by norm_num [StreamingSamplerSound.hasEnoughSamplesForBlock, renderSamplesToCopy,
        framesNeeded, StreamingSamplerVoice.renderPos, eps99999, exVoiceShort, exVoice,
        exLoader, exSoundShort])).2.2 16 none exDest 0 3⟩

/-! ## C5: additive mixing and frame-locality of the render loop -/

/-- Behaviour of the interpolation loop: inside the rendered range each output
position receives its previous value plus the interpolated contribution for
that frame; outside the range the output is untouched. -/
theorem renderLoop_apply (inBuf : ℕ → Frame) (pos : ℕ) (uptimeDelta : ℚ) :
    ∀ (numSamples : ℕ) (out : ℕ → Frame) (outPos : ℕ) (uptime : ℚ),
    (∀ j, outPos ≤ j → j < outPos + numSamples →
        renderLoop inBuf pos uptimeDelta out outPos uptime numSamples j
          = ((out j).1 + (interpFrame inBuf
                (uptime + ((j - outPos : ℕ) : ℚ) * uptimeDelta - (pos : ℚ))).1,
             (out j).2 + (interpFrame inBuf
                (uptime + ((j - outPos : ℕ) : ℚ) * uptimeDelta - (pos : ℚ))).2))
    ∧ (∀ j, j < outPos ∨ outPos + numSamples ≤ j →
        renderLoop inBuf pos uptimeDelta out outPos uptime numSamples j = out j) := by
  intro numSamples
  induction numSamples with
  | zero =>
    intro out outPos uptime
    refine ⟨fun j h1 h2 => absurd h2 (by omega), fun j _ => rfl⟩
  | succ n ih =>
    intro out outPos uptime
    constructor
    · intro j h1 h2
      by_cases hj : j = outPos
      · subst hj
        have hout := (ih (addIntoAt out j (interpFrame inBuf (uptime - (pos : ℚ))))
          (j + 1) (uptime + uptimeDelta)).2 j (Or.inl (by omega))
        simp only [renderLoop, hout, addIntoAt, if_pos rfl, if_true, eq_self_iff_true,
          Nat.sub_self, Nat.cast_zero, zero_mul, add_zero]
      · have hlt : outPos + 1 ≤ j := by omega
        have hout := (ih (addIntoAt out outPos (interpFrame inBuf (uptime - (pos : ℚ))))
          (outPos + 1) (uptime + uptimeDelta)).1 j hlt (by omega)
        have harg : uptime + uptimeDelta + ((j - (outPos + 1) : ℕ) : ℚ) * uptimeDelta - (pos : ℚ)
            = uptime + ((j - outPos : ℕ) : ℚ) * uptimeDelta - (pos : ℚ) := by
          have hn : (j - outPos : ℕ) = (j - (outPos + 1)) + 1 := by omega
          rw [hn]
          push_cast
          ring
        simp only [renderLoop, hout, harg, addIntoAt, if_neg hj]
    · intro j hj
      have hne : j ≠ outPos := by omega
      have hout := (ih (addIntoAt out outPos (interpFrame inBuf (uptime - (pos : ℚ))))
        (outPos + 1) (uptime + uptimeDelta)).2 j (by omega)
      simp only [renderLoop, hout, addIntoAt, if_neg hne]

/-- C5: with a bound sound and sufficient available data, each output sample in
`[startSample, startSample + numSamples)` afterwards equals its previous value
plus that frame's linearly interpolated left/right contribution from the filled
work buffer (addition, not overwrite), and every output sample outside that
range is unchanged. -/
theorem renderNextBlock_additive_mix (maxSamplerPitch : ℚ) (pitchData : Option (ℕ → ℚ))
    (v : StreamingSamplerVoice) (outputBuffer : ℕ → Frame) (startSample numSamples : ℕ)
    (snd : StreamingSamplerSound) (hs : v.loader.sound = some snd)
    (hen : snd.hasEnoughSamplesForBlock
        (v.renderPos + renderSamplesToCopy maxSamplerPitch pitchData v startSample numSamples)
        = true) :
    (∀ j, startSample ≤ j → j < startSample + numSamples →
        (StreamingSamplerVoice.renderNextBlock maxSamplerPitch pitchData v outputBuffer
            startSample numSamples).out j
          = ((outputBuffer j).1 + (interpFrame (renderWork maxSamplerPitch pitchData v
                startSample numSamples).dest
                (v.voiceUptime + ((j - startSample : ℕ) : ℚ) * v.uptimeDelta
                  - (v.renderPos : ℚ))).1,
             (outputBuffer j).2 + (interpFrame (renderWork maxSamplerPitch pitchData v
                startSample numSamples).dest
                (v.voiceUptime + ((j - startSample : ℕ) : ℚ) * v.uptimeDelta
                  - (v.renderPos : ℚ))).2))
    ∧ (∀ j, j < startSample ∨ startSample + numSamples ≤ j →
        (StreamingSamplerVoice.renderNextBlock maxSamplerPitch pitchData v outputBuffer
            startSample numSamples).out j = outputBuffer j) := by
  have hr : (StreamingSamplerVoice.renderNextBlock maxSamplerPitch pitchData v outputBuffer
      startSample numSamples).out
      = renderLoop (renderWork maxSamplerPitch pitchData v startSample numSamples).dest
          v.renderPos v.uptimeDelta outputBuffer startSample v.voiceUptime numSamples := by
    simp only [StreamingSamplerVoice.renderNextBlock, hs, hen, if_true]
  rw [hr]
  exact renderLoop_apply _ _ _ numSamples outputBuffer startSample v.voiceUptime

/-- Witness for C5 at the concrete fixture: the second rendered sample is the
old output plus the interpolated contribution, and a sample outside the block
is untouched. -/
theorem renderNextBlock_additive_mix_witness :
    (StreamingSamplerVoice.renderNextBlock 16 none exVoice exZeroOut 0 2).out 1
      = ((exZeroOut 1).1 + (interpFrame (renderWork 16 none exVoice 0 2).dest
            (exVoice.voiceUptime + ((1 - 0 : ℕ) : ℚ) * exVoice.uptimeDelta
              - (exVoice.renderPos : ℚ))).1,
         (exZeroOut 1).2 + (interpFrame (renderWork 16 none exVoice 0 2).dest
            (exVoice.voiceUptime + ((1 - 0 : ℕ) : ℚ) * exVoice.uptimeDelta
              - (exVoice.renderPos : ℚ))).2)
    ∧ (StreamingSamplerVoice.renderNextBlock 16 none exVoice exZeroOut 0 2).out 5 = exZeroOut 5 :=
  ⟨(renderNextBlock_additive_mix 16 none exVoice exZeroOut 0 2 exSound rfl
      (by norm_num [StreamingSamplerSound.hasEnoughSamplesForBlock, renderSamplesToCopy,
        framesNeeded, StreamingSamplerVoice.renderPos, eps99999, exVoice, exLoader,
        exSound])).1 1 (by omega) (by omega),
   (renderNextBlock_additive_mix 16 none exVoice exZeroOut 0 2 exSound rfl
      (by norm_num [StreamingSamplerSound.hasEnoughSamplesForBlock, renderSamplesToCopy,
        framesNeeded, StreamingSamplerVoice.renderPos, eps99999, exVoice, exLoader,
        exSound])).2 5 (by omega)⟩

/-! ## C1: double-buffering is transparent to content -/

/-- C1: whenever the loader's buffers hold the windows of the mapped source an
in-bounds streaming state provides — the read buffer holds frames
`[(k-1)·B, k·B)`, the other buffer's fill has completed and holds frames
`[k·B, (k+1)·B)` — a `fillSampleBlockBuffer` call for any range inside those
bounds writes, frame for frame, exactly what a direct unbuffered read of the
mapped source over the same range returns. -/
theorem fillSampleBlockBuffer_refines (st : SampleLoader) (snd : StreamingSamplerSound)
    (dest : ℕ → Frame) (k numSamples sampleIndex : ℕ)
    (hB : 0 < st.bufferSize) (hk : 1 ≤ k)
    (hsnd : st.sound = some snd)
    (hflag : st.writeBufferIsBeingFilled = false)
    (hread : ∀ j, j < st.bufferSize →
        st.deref st.readBuffer j = snd.src ((k - 1) * st.bufferSize + j))
    (hother : ∀ j, j < st.bufferSize →
        st.deref (if st.readBuffer = BufPtr.b1 then BufPtr.b2 else BufPtr.b1) j
          = snd.src (k * st.bufferSize + j))
    (hlo : (k - 1) * st.bufferSize ≤ sampleIndex)
    (hhi : sampleIndex < k * st.bufferSize)
    (hrange : sampleIndex + numSamples ≤ (k + 1) * st.bufferSize) :
    ∀ i, i < numSamples →
      (SampleLoader.fillSampleBlockBuffer st dest numSamples sampleIndex).dest i
        = snd.src (sampleIndex + i) := by
  intro i hi
  obtain ⟨B, b1f, b2f, rb, wb, snd0, ri, pos0, flag, du, lc⟩ := st
  simp only at hB hflag hread hother hlo hhi hrange
  subst hflag
  have hkB : k * B = (k - 1) * B + B := by
    cases k with
    | zero => omega
    | succ m => simp [Nat.succ_sub_one, Nat.succ_mul]
  have hkB2 : (k + 1) * B = k * B + B := by ring
  have hmod : sampleIndex % B = sampleIndex - (k - 1) * B := by
    have h1 : sampleIndex = (k - 1) * B + (sampleIndex - (k - 1) * B) := by omega
    conv_lhs => rw [h1]
    rw [Nat.add_comm, Nat.add_mul_mod_self_right]
    exact Nat.mod_eq_of_lt (by omega)
  simp only [SampleLoader.fillSampleBlockBuffer, SampleLoader.swapBuffers,
    SampleLoader.requestNewData, hmod]
  by_cases hfast : sampleIndex - (k - 1) * B + numSamples < B
  · simp only [if_pos hfast, copyRange, Nat.sub_zero]
    rw [if_pos (show 0 ≤ i ∧ i < 0 + numSamples from ⟨Nat.zero_le i, by omega⟩)]
    rw [hread (sampleIndex - (k - 1) * B + i) (by omega)]
    congr 1
    omega
  · simp only [if_neg hfast]
    cases rb with
    | b1 =>
      have hoth : ∀ j, j < B → b2f j = snd.src (k * B + j) := by
        intro j hj
        simpa [SampleLoader.deref] using hother j hj
      have hrd : ∀ j, j < B → b1f j = snd.src ((k - 1) * B + j) := by
        intro j hj
        simpa [SampleLoader.deref] using hread j hj
      simp [SampleLoader.deref, copyRange]
      split_ifs with h1 h2
      all_goals first
        | exact (hoth _ (by omega)).trans (by congr 1; omega)
        | exact (hrd _ (by omega)).trans (by congr 1; omega)
        | (exfalso; omega)
    | b2 =>
      have hoth : ∀ j, j < B → b1f j = snd.src (k * B + j) := by
        intro j hj
        simpa [SampleLoader.deref] using hother j hj
      have hrd : ∀ j, j < B → b2f j = snd.src ((k - 1) * B + j) := by
        intro j hj
        simpa [SampleLoader.deref] using hread j hj
      simp [SampleLoader.deref, copyRange]
      split_ifs with h1 h2
      all_goals first
        | exact (hoth _ (by omega)).trans (by congr 1; omega)
        | exact (hrd _ (by omega)).trans (by congr 1; omega)
        | (exfalso; omega)
    | preload =>
      have hoth : ∀ j, j < B → b1f j = snd.src (k * B + j) := by
        intro j hj
        simpa [SampleLoader.deref] using hother j hj
      subst hsnd
      have hrd : ∀ j, j < B → snd.preloadBuffer j = snd.src ((k - 1) * B + j) := by
        intro j hj
        simpa [SampleLoader.deref] using hread j hj
      simp [SampleLoader.deref, copyRange]
      split_ifs with h1 h2
      all_goals first
        | exact (hoth _ (by omega)).trans (by congr 1; omega)
        | exact (hrd _ (by omega)).trans (by congr 1; omega)
        | (exfalso; omega)

/-- Witness for C1 at the concrete fixture (`k = 1`, preload phase, a request
crossing the swap boundary): frame 3 of the destination equals source frame 5. -/
theorem fillSampleBlockBuffer_refines_witness :
    (SampleLoader.fillSampleBlockBuffer exLoader exDest 4 2).dest 3 = exSound.src (2 + 3) :=
  fillSampleBlockBuffer_refines exLoader exSound exDest 1 4 2
    (by norm_num [exLoader]) le_rfl rfl rfl
    (fun j hj => by simp [exLoader, exSound, SampleLoader.deref])
    (fun j hj => by simp [exLoader, exSound, SampleLoader.deref])
    (by norm_num [exLoader]) (by norm_num [exLoader]) (by norm_num [exLoader])
    3 (by norm_num)
